import Mathlib

/-!
Verification of the libretro hello-world core against its specification.

The repository holds two near-duplicate C translation units,
`src/lib.c` and `src/hello_world_core.c`.  Both render a 320x240 RGB565
framebuffer containing a 20x20 red square and the text "Hello World",
negotiate capabilities with the host frontend, and expose the fixed
libretro entry points.  This file gives a shallow embedding of the parts
of both files that the claims refer to:

- pure framebuffer operations (`draw_char`, `draw_string`, the square
  fill of `retro_run`) become Lean functions over `Framebuffer`,
  the flat row-major pixel map of the C `uint16_t framebuffer[]` array;
- the file-scope mutable globals of each translation unit become a state
  structure (`LibState` for `lib.c`, `HwcState` for `hello_world_core.c`);
- each entry point becomes a function from the old state to the new
  state paired with the list of observable events it performs: requests
  issued through the environment callback, log lines, input polls and
  video submissions.  Callback function pointers are modelled as `Bool`
  presence flags, and the behaviour of the host environment callback is
  modelled by a `Host` record saying which requests succeed.

Log messages are carried as plain strings (trailing newlines and printf
arguments dropped); whether a message goes through the host log callback
or the fallback file logger is not distinguished, since no claim depends
on the channel.
-/

/-- Framebuffer width in pixels (the C macro WIDTH). -/
def WIDTH : Int := 320

/-- Framebuffer height in pixels (the C macro HEIGHT). -/
def HEIGHT : Int := 240

/-- RGB565 white (the C macro COLOR_WHITE). -/
def COLOR_WHITE : Nat := 0xFFFF

/-- RGB565 red (the C macro COLOR_RED). -/
def COLOR_RED : Nat := 0xF800

/-- The framebuffer of either translation unit: a flat row-major map from
the array index `py * WIDTH + px` to the 16-bit pixel value, mirroring
the C array `uint16_t framebuffer[WIDTH * HEIGHT]`.  The C code only
ever writes indices computed from in-bounds coordinates; the claims
about clipping are stated and proved over this representation. -/
def Framebuffer : Type := Nat → Nat

/-- Modelled from the spec: the bitmap font table `font_8x8` lives in the
header `font.h`, which is not part of the provided sources.  Per the
spec (section 3), it maps a printable ASCII code (indexed by
`code - 32`) to an 8x8 monochrome glyph of 8 bytes, one byte per row,
bit set meaning pixel drawn.  Since no claim depends on the actual
bitmap data, the table is abstracted as a function from glyph index and
row to the row byte, and every theorem about the renderer is proved for
every such table. -/
def Font : Type := Nat → Nat → Nat

/-- Log levels of the retro_log / fallback logging calls. -/
inductive LogLevel where
  | debug
  | info
  | warn
  | error
deriving DecidableEq

/-- Requests the core can issue to the host through the environment
callback (the RETRO_ENVIRONMENT_* commands used by this core). -/
inductive EnvCmd where
  | setSupportNoGame
  | setPixelFormat
  | getLogInterface
  | shutdown
deriving DecidableEq

/-- Observable actions of an entry point: an environment request, a log
line, an input poll, or a video frame submission. -/
inductive CoreEvent where
  | envCall (cmd : EnvCmd)
  | log (lvl : LogLevel) (msg : String)
  | inputPoll
  | videoRefresh
deriving DecidableEq

/-- Behaviour of the host environment callback: which of the requests
issued by this core succeed, and whether a successfully returned log
interface carries a non-null log function. -/
structure Host where
  noGameOk : Bool
  pixelFormatOk : Bool
  logInterfaceOk : Bool
  logInterfaceLog : Bool
deriving DecidableEq

/-- Snapshot of the four directional joypad buttons read by
`retro_run` in `lib.c` for port 0. -/
structure Inputs where
  right : Bool
  left : Bool
  down : Bool
  up : Bool
deriving DecidableEq

/-- One conditional pixel store of the draw_char inner loop:
`if (px >= 0 && px < WIDTH && py >= 0 && py < HEIGHT)
   framebuffer[py * WIDTH + px] = color;` -/
def setPixel (fb : Framebuffer) (px py : Int) (color : Nat) : Framebuffer :=
  if 0 ≤ px ∧ px < WIDTH ∧ 0 ≤ py ∧ py < HEIGHT then
    fun i => if i = (py * WIDTH + px).toNat then color else fb i
  else fb

/-- The framebuffer effect of `draw_char` (identical in `lib.c` lines
77-97 and `hello_world_core.c` lines 70-90): reject codes outside
[32,126], then for each set glyph bit write the pixel if its destination
lies inside the framebuffer.  The C loop tests
`glyph[gy] & (1 << (7 - gx))`, i.e. bit `7 - gx` of row byte `gy`. -/
def draw_char (font : Font) (fb : Framebuffer) (x y c : Int) (color : Nat) :
    Framebuffer :=
  if c < 32 ∨ 126 < c then fb
  else
    (List.range 8).foldl (fun fbY gy =>
      (List.range 8).foldl (fun fbX gx =>
        if Nat.testBit (font (c - 32).toNat gy) (7 - gx) then
          setPixel fbX (x + gx) (y + gy) color
        else fbX) fbY) fb

/-- The log effect of the same `draw_char` call: codes outside [32,126]
produce one warning line, valid codes log nothing. -/
def drawCharLog (c : Int) : List CoreEvent :=
  if c < 32 ∨ 126 < c then [CoreEvent.log LogLevel.warn "Invalid character"]
  else []

/-- The loop body of `draw_string`: starting from cursor `cx`, draw each
remaining character and advance the cursor by 8, returning the final
framebuffer and the final cursor value of the local variable `cx`. -/
def drawStringAux (font : Font) (fb : Framebuffer) (cx y : Int)
    (str : List Int) (color : Nat) : Framebuffer × Int :=
  match str with
  | [] => (fb, cx)
  | ch :: rest =>
      drawStringAux font (draw_char font fb cx y ch color) (cx + 8) y rest color

/-- The framebuffer effect of `draw_string` (identical loop in `lib.c`
lines 100-110 and `hello_world_core.c` lines 93-103): the characters of
the NUL-terminated C string are modelled as the list of their codes. -/
def draw_string (font : Font) (fb : Framebuffer) (x y : Int)
    (str : List Int) (color : Nat) : Framebuffer :=
  (drawStringAux font fb x y str color).1

/-- The warnings emitted by the draw_char calls inside `draw_string`. -/
def drawStringLog (str : List Int) : List CoreEvent :=
  str.foldl (fun evs ch => evs ++ drawCharLog ch) []

/-- The codes of the characters of the C string literal "Hello World". -/
def helloWorld : List Int :=
  [72, 101, 108, 108, 111, 32, 87, 111, 114, 108, 100]

/-- An all-zero framebuffer, the result of `clear_framebuffer` (memset
to 0) and the initial content of the static C array. -/
def fbZero : Framebuffer := fun _ => 0

/-- The file-scope mutable globals of `lib.c`: the callback pointers
(modelled as presence flags), the framebuffer, the lifecycle and
negotiation flags, the environment-call counter and the square
position.  `log_file` is not modelled: no claim depends on the
fallback log file handle. -/
structure LibState where
  environCb : Bool
  logCb : Bool
  videoCb : Bool
  inputPollCb : Bool
  inputStateCb : Bool
  framebuffer : Framebuffer
  initialized : Bool
  contentlessSet : Bool
  envCallCount : Int
  squareX : Int
  squareY : Int

/-- The initial values of the statics of `lib.c`: null pointers, zeroed
framebuffer, false flags, zero counter and position. -/
def initLibState : LibState :=
  { environCb := false
    logCb := false
    videoCb := false
    inputPollCb := false
    inputStateCb := false
    framebuffer := fbZero
    initialized := false
    contentlessSet := false
    envCallCount := 0
    squareX := 0
    squareY := 0 }

/-- `retro_set_environment` of `lib.c` (lines 113-142): store the
callback and bump the counter; on a null callback log an error and
return; otherwise log the call and, if content-less support was not yet
negotiated, request it from the host, recording success in
`contentless_set`. -/
def Lib.retro_set_environment (host : Host) (cbPresent : Bool)
    (s : LibState) : LibState × List CoreEvent :=
  let s1 := { s with environCb := cbPresent, envCallCount := s.envCallCount + 1 }
  if cbPresent = false then
    (s1, [CoreEvent.log LogLevel.error
            "retro_set_environment: Null environment callback"])
  else if s.contentlessSet then
    (s1, [CoreEvent.log LogLevel.debug "retro_set_environment called"])
  else if host.noGameOk then
    ({ s1 with contentlessSet := true },
     [CoreEvent.log LogLevel.debug "retro_set_environment called",
      CoreEvent.envCall EnvCmd.setSupportNoGame,
      CoreEvent.log LogLevel.info "Content-less support enabled"])
  else
    (s1, [CoreEvent.log LogLevel.debug "retro_set_environment called",
          CoreEvent.envCall EnvCmd.setSupportNoGame,
          CoreEvent.log LogLevel.error "Failed to set content-less support"])

/-- `retro_init` of `lib.c` (lines 175-211): set `initialized`, log,
clear the framebuffer, then request the RGB565 pixel format -- on
failure log an error and, when the environment callback is non-null,
request RETRO_ENVIRONMENT_SHUTDOWN from the host -- and finally request
the log interface, storing the returned log function (possibly null)
into `log_cb` on success.  Note `lib.c` keeps no success flag for the
pixel-format or log-interface requests: both are issued on every call
when the environment callback is present. -/
def Lib.retro_init (host : Host) (s : LibState) : LibState × List CoreEvent :=
  let evInit := [CoreEvent.log LogLevel.debug "Hello World core initialized"]
  let s1 := { s with initialized := true, framebuffer := fbZero }
  let evPix : List CoreEvent :=
    if s.environCb = false then
      [CoreEvent.log LogLevel.error "Failed to set pixel format: RGB565"]
    else if host.pixelFormatOk then
      [CoreEvent.envCall EnvCmd.setPixelFormat,
       CoreEvent.log LogLevel.debug "Pixel format set: RGB565"]
    else
      [CoreEvent.envCall EnvCmd.setPixelFormat,
       CoreEvent.log LogLevel.error "Failed to set pixel format: RGB565",
       CoreEvent.envCall EnvCmd.shutdown]
  let logNew :=
    if s.environCb ∧ host.logInterfaceOk then host.logInterfaceLog else s.logCb
  let evLog : List CoreEvent :=
    if s.environCb = false then
      [CoreEvent.log LogLevel.warn "Failed to get log interface"]
    else if host.logInterfaceOk then
      CoreEvent.envCall EnvCmd.getLogInterface ::
        (if host.logInterfaceLog then
          [CoreEvent.log LogLevel.debug "Logging callback initialized"]
         else [])
    else
      [CoreEvent.envCall EnvCmd.getLogInterface,
       CoreEvent.log LogLevel.warn "Failed to get log interface"]
  ({ s1 with logCb := logNew }, evInit ++ evPix ++ evLog)

/-- `retro_deinit` of `lib.c` (lines 214-228): close the log file, clear
the lifecycle and negotiation flags, the counter and the square
position, and log. -/
def Lib.retro_deinit (s : LibState) : LibState × List CoreEvent :=
  ({ s with initialized := false, contentlessSet := false,
            envCallCount := 0, squareX := 0, squareY := 0 },
   [CoreEvent.log LogLevel.debug "Core deinitialized"])

/-- `retro_reset` of `lib.c` (lines 273-281): clear the framebuffer,
zero the square position, log. -/
def Lib.retro_reset (s : LibState) : LibState × List CoreEvent :=
  ({ s with framebuffer := fbZero, squareX := 0, squareY := 0 },
   [CoreEvent.log LogLevel.debug "Core reset"])

/-- `retro_set_video_refresh` of `lib.c`: store the callback, log. -/
def Lib.retro_set_video_refresh (cbPresent : Bool) (s : LibState) :
    LibState × List CoreEvent :=
  ({ s with videoCb := cbPresent },
   [CoreEvent.log LogLevel.debug "Video refresh callback set"])

/-- `retro_set_input_poll` of `lib.c`: store the callback, log. -/
def Lib.retro_set_input_poll (cbPresent : Bool) (s : LibState) :
    LibState × List CoreEvent :=
  ({ s with inputPollCb := cbPresent },
   [CoreEvent.log LogLevel.debug "Input poll callback set"])

/-- `retro_set_input_state` of `lib.c`: store the callback, log. -/
def Lib.retro_set_input_state (cbPresent : Bool) (s : LibState) :
    LibState × List CoreEvent :=
  ({ s with inputStateCb := cbPresent },
   [CoreEvent.log LogLevel.debug "Input state callback set"])

/-- `retro_load_game` of `lib.c` (lines 348-360): log, clear the
framebuffer, log, return true. -/
def Lib.retro_load_game (s : LibState) :
    (LibState × List CoreEvent) × Bool :=
  (({ s with framebuffer := fbZero },
    [CoreEvent.log LogLevel.debug "Game loaded",
     CoreEvent.log LogLevel.debug "retro_load_game completed"]), true)

/-- The x-axis input update of `retro_run` in `lib.c` (lines 299-306),
in the literal order of the source: first the RIGHT branch
(`square_x += 1` then clamp to `WIDTH - 20`), then the LEFT branch
(`square_x -= 1` then clamp to `0`). -/
def updX (inp : Inputs) (x : Int) : Int :=
  let x1 := if inp.right then (if x + 1 > WIDTH - 20 then WIDTH - 20 else x + 1)
            else x
  if inp.left then (if x1 - 1 < 0 then 0 else x1 - 1) else x1

/-- The y-axis input update of `retro_run` in `lib.c` (lines 308-315):
first the DOWN branch (increment, clamp to `HEIGHT - 20`), then the UP
branch (decrement, clamp to `0`). -/
def updY (inp : Inputs) (y : Int) : Int :=
  let y1 := if inp.down then (if y + 1 > HEIGHT - 20 then HEIGHT - 20 else y + 1)
            else y
  if inp.up then (if y1 - 1 < 0 then 0 else y1 - 1) else y1

/-- The 20x20 red square fill of `retro_run` in `lib.c` (lines 319-324):
for each offset the pixel is stored only under the guard
`square_x + x < WIDTH && square_y + y < HEIGHT`. -/
def fillSquare (fb : Framebuffer) (sx sy : Int) : Framebuffer :=
  (List.range 20).foldl (fun fbY y =>
    (List.range 20).foldl (fun fbX x =>
      if sx + x < WIDTH ∧ sy + y < HEIGHT then
        fun i => if i = ((y + sy) * WIDTH + (x + sx)).toNat then COLOR_RED
                 else fbX i
      else fbX) fbY) fb

/-- `retro_run` of `lib.c` (lines 284-345): when not initialized, log an
error and return with nothing else done; otherwise clear the
framebuffer, poll input if the poll callback is present, apply the
four directional updates if the state callback is present, fill the red
square at the updated position, draw "Hello World" at (50, 50) in
white, and submit the frame to the video callback if present (else log
an error). -/
def Lib.retro_run (font : Font) (inp : Inputs) (s : LibState) :
    LibState × List CoreEvent :=
  if s.initialized = false then
    (s, [CoreEvent.log LogLevel.error "Core not initialized in retro_run"])
  else
    let evPoll := if s.inputPollCb then [CoreEvent.inputPoll] else []
    let x1 := if s.inputStateCb then updX inp s.squareX else s.squareX
    let y1 := if s.inputStateCb then updY inp s.squareY else s.squareY
    let fb1 := fillSquare fbZero x1 y1
    let fb2 := draw_string font fb1 50 50 helloWorld COLOR_WHITE
    let evVid := if s.videoCb then [CoreEvent.videoRefresh]
                 else [CoreEvent.log LogLevel.error "No video callback set"]
    ({ s with framebuffer := fb2, squareX := x1, squareY := y1 },
     evPoll ++ drawStringLog helloWorld ++ evVid)

/-- The file-scope mutable globals of `hello_world_core.c`: like
`lib.c` but with no input callbacks, no square position, and an extra
`pixel_format_set` negotiation flag. -/
structure HwcState where
  environCb : Bool
  logCb : Bool
  videoCb : Bool
  framebuffer : Framebuffer
  initialized : Bool
  pixelFormatSet : Bool
  contentlessSet : Bool
  envCallCount : Int

/-- The initial values of the statics of `hello_world_core.c`. -/
def initHwcState : HwcState :=
  { environCb := false
    logCb := false
    videoCb := false
    framebuffer := fbZero
    initialized := false
    pixelFormatSet := false
    contentlessSet := false
    envCallCount := 0 }

/-- `retro_set_environment` of `hello_world_core.c` (lines 110-169):
store the callback and bump the counter; on a null callback log an
error and return; otherwise request content-less support (guarded by
`contentless_set`), then the log interface (guarded by `log_cb` being
null, storing the possibly-null returned function), then the RGB565
pixel format (guarded by `pixel_format_set`).  Every failure is only
logged; this translation unit never requests a shutdown. -/
def Hwc.retro_set_environment (host : Host) (cbPresent : Bool)
    (s : HwcState) : HwcState × List CoreEvent :=
  let s1 := { s with environCb := cbPresent, envCallCount := s.envCallCount + 1 }
  if cbPresent = false then
    (s1, [CoreEvent.log LogLevel.error
            "retro_set_environment: Null environment callback"])
  else
    let evHead := [CoreEvent.log LogLevel.debug "retro_set_environment called"]
    let s2 := if s.contentlessSet then s1
              else if host.noGameOk then { s1 with contentlessSet := true }
              else s1
    let evCl : List CoreEvent :=
      if s.contentlessSet then []
      else if host.noGameOk then
        [CoreEvent.envCall EnvCmd.setSupportNoGame,
         CoreEvent.log LogLevel.info "Content-less support enabled"]
      else
        [CoreEvent.envCall EnvCmd.setSupportNoGame,
         CoreEvent.log LogLevel.error "Failed to set content-less support"]
    let s3 := if s.logCb then s2
              else if host.logInterfaceOk then
                { s2 with logCb := host.logInterfaceLog }
              else { s2 with logCb := false }
    let evLg : List CoreEvent :=
      if s.logCb then []
      else if host.logInterfaceOk then
        CoreEvent.envCall EnvCmd.getLogInterface ::
          (if host.logInterfaceLog then
            [CoreEvent.log LogLevel.debug "Logging callback initialized"]
           else [])
      else
        [CoreEvent.envCall EnvCmd.getLogInterface,
         CoreEvent.log LogLevel.warn "Failed to get log interface"]
    let s4 := if s.pixelFormatSet then s3
              else if host.pixelFormatOk then { s3 with pixelFormatSet := true }
              else s3
    let evPx : List CoreEvent :=
      if s.pixelFormatSet then []
      else if host.pixelFormatOk then
        [CoreEvent.envCall EnvCmd.setPixelFormat,
         CoreEvent.log LogLevel.debug "Pixel format set: RGB565"]
      else
        [CoreEvent.envCall EnvCmd.setPixelFormat,
         CoreEvent.log LogLevel.error "Failed to set pixel format: RGB565"]
    (s4, evHead ++ evCl ++ evLg ++ evPx)

/-- The fixed 20x20 red square fill of `retro_run` in
`hello_world_core.c` (lines 279-283): unconditional stores at
`framebuffer[y * WIDTH + x]` for offsets 0..19. -/
def hwcFillSquare (fb : Framebuffer) : Framebuffer :=
  (List.range 20).foldl (fun fbY y =>
    (List.range 20).foldl (fun fbX x =>
      fun i => if i = y * WIDTH.toNat + x then COLOR_RED else fbX i) fbY) fb

/-- `retro_run` of `hello_world_core.c` (lines 264-300): when not
initialized, log an error and return with nothing else done; otherwise
log, clear, fill the fixed square at (0,0), draw "Hello World" at
(50, 50) in white, and submit to the video callback if present. -/
def Hwc.retro_run (font : Font) (s : HwcState) : HwcState × List CoreEvent :=
  if s.initialized = false then
    (s, [CoreEvent.log LogLevel.error "Core not initialized in retro_run"])
  else
    let fb1 := hwcFillSquare fbZero
    let fb2 := draw_string font fb1 50 50 helloWorld COLOR_WHITE
    let evVid := if s.videoCb then
                   [CoreEvent.videoRefresh,
                    CoreEvent.log LogLevel.debug "Framebuffer sent to video_cb"]
                 else [CoreEvent.log LogLevel.error "No video callback set"]
    ({ s with framebuffer := fb2 },
     [CoreEvent.log LogLevel.debug "Running frame",
      CoreEvent.log LogLevel.debug "Clearing framebuffer",
      CoreEvent.log LogLevel.debug "Drawing string"] ++
       drawStringLog helloWorld ++ evVid)

/-- One invocation of a `lib.c` entry point, with the arguments and
host behaviour it sees.  Entry points that only log and return a
constant (system info, AV info, controller port, region, the
serialization, cheat and memory stubs, the load/unload variants,
the audio setters and the API version query) do not touch any of the
modelled globals; they are grouped as `stub`. -/
inductive Call where
  | setEnvironment (host : Host) (cbPresent : Bool)
  | setVideoRefresh (cbPresent : Bool)
  | setInputPoll (cbPresent : Bool)
  | setInputState (cbPresent : Bool)
  | init (host : Host)
  | deinit
  | reset
  | run (font : Font) (inp : Inputs)
  | loadGame
  | stub

/-- The state transition of one `lib.c` entry-point invocation
(events dropped). -/
def applyCall (c : Call) (s : LibState) : LibState :=
  match c with
  | .setEnvironment host cb => (Lib.retro_set_environment host cb s).1
  | .setVideoRefresh cb => (Lib.retro_set_video_refresh cb s).1
  | .setInputPoll cb => (Lib.retro_set_input_poll cb s).1
  | .setInputState cb => (Lib.retro_set_input_state cb s).1
  | .init host => (Lib.retro_init host s).1
  | .deinit => (Lib.retro_deinit s).1
  | .reset => (Lib.retro_reset s).1
  | .run font inp => (Lib.retro_run font inp s).1
  | .loadGame => (Lib.retro_load_game s).1.1
  | .stub => s

/-- The `lib.c` state reached from the initial statics by a sequence of
entry-point invocations. -/
def reach (cs : List Call) : LibState :=
  cs.foldl (fun s c => applyCall c s) initLibState

/-- The 20x20 square at `(squareX, squareY)` lies fully inside the
320x240 framebuffer. -/
def squareInBounds (s : LibState) : Prop :=
  0 ≤ s.squareX ∧ s.squareX ≤ WIDTH - 20 ∧
    0 ≤ s.squareY ∧ s.squareY ≤ HEIGHT - 20

/-! ## Renderer theorems -/

lemma foldl_unchanged {α : Type} (g : Framebuffer → α → Framebuffer) (i : Nat) :
    ∀ (l : List α) (fb : Framebuffer),
      (∀ fb' a, a ∈ l → g fb' a i = fb' i) → (l.foldl g fb) i = fb i := by
  intro l
  induction l with
  | nil => intro fb _; rfl
  | cons a t ih =>
      intro fb h
      rw [List.foldl_cons,
          ih (g fb a) (fun fb' b hb => h fb' b (List.mem_cons_of_mem a hb))]
      exact h fb a (List.mem_cons_self a t)

lemma setPixel_eq_of_ne (fb : Framebuffer) (px py : Int) (color : Nat) (i : Nat)
    (h : ¬(0 ≤ px ∧ px < WIDTH ∧ 0 ≤ py ∧ py < HEIGHT) ∨
         i ≠ (py * WIDTH + px).toNat) :
    setPixel fb px py color i = fb i := by
  by_cases hc : 0 ≤ px ∧ px < WIDTH ∧ 0 ≤ py ∧ py < HEIGHT
  · rcases h with h | h
    · exact absurd hc h
    · simp [setPixel, hc, h]
  · simp [setPixel, hc]

/-- C4: for every position, color and character code in [32,126] (and
every font table), `draw_char` changes at most the cells whose index is
`(y+gy)*WIDTH + (x+gx)` for some glyph offset `(gx, gy)` whose
destination coordinate lies inside `[0,WIDTH) x [0,HEIGHT)`; every
other cell -- in particular every cell of the 8x8 destination
rectangle falling outside the framebuffer -- is left untouched, so
clipping neither wraps nor clamps, including for glyphs straddling any
framebuffer edge. -/
theorem draw_char_clips (font : Font) (fb : Framebuffer) (x y c : Int)
    (color : Nat) (hc : 32 ≤ c ∧ c ≤ 126) (i : Nat)
    (hi : ∀ gx : Nat, gx < 8 → ∀ gy : Nat, gy < 8 →
        0 ≤ x + (gx : Int) → x + (gx : Int) < WIDTH →
        0 ≤ y + (gy : Int) → y + (gy : Int) < HEIGHT →
        i ≠ ((y + (gy : Int)) * WIDTH + (x + (gx : Int))).toNat) :
    draw_char font fb x y c color i = fb i := by
  have hcc : ¬(c < 32 ∨ 126 < c) := by omega
  rw [draw_char, if_neg hcc]
  refine foldl_unchanged _ i (List.range 8) fb ?_
  intro fbY gy hgy
  refine foldl_unchanged _ i (List.range 8) fbY ?_
  intro fbX gx hgx
  by_cases hbit : Nat.testBit (font (c - 32).toNat gy) (7 - gx)
  · rw [if_pos hbit]
    refine setPixel_eq_of_ne fbX _ _ color i ?_
    by_cases hin : 0 ≤ x + (gx : Int) ∧ x + (gx : Int) < WIDTH ∧
        0 ≤ y + (gy : Int) ∧ y + (gy : Int) < HEIGHT
    · exact Or.inr (hi gx (List.mem_range.mp hgx) gy (List.mem_range.mp hgy)
        hin.1 hin.2.1 hin.2.2.1 hin.2.2.2)
    · exact Or.inl hin
  · rw [if_neg hbit]

/-- A font table with every glyph bit set, used to witness the clipping
theorem at a glyph straddling the top-left framebuffer corner. -/
def fontFull : Font := fun _ _ => 255

/-- Witness for C4: the glyph of code 65 drawn at (-4, -4) with every
bit set straddles the top-left corner; cell 5000 is outside the
in-bounds part of its destination rectangle and keeps its value. -/
theorem draw_char_clips_witness :
    draw_char fontFull fbZero (-4) (-4) 65 7 5000 = fbZero 5000 :=
  draw_char_clips fontFull fbZero (-4) (-4) 65 7 (by norm_num) 5000 (by
    intro gx hgx gy hgy h1 h2 h3 h4
    simp only [WIDTH, HEIGHT] at *
    omega)

/-- C6: for every character code outside [32,126] and every position,
color and font table, `draw_char` returns the framebuffer unchanged and
its log effect is exactly one warning line; the function is total, so
there is no crash path. -/
theorem draw_char_invalid (font : Font) (fb : Framebuffer) (x y c : Int)
    (color : Nat) (h : c < 32 ∨ 126 < c) :
    draw_char font fb x y c color = fb ∧
      drawCharLog c = [CoreEvent.log LogLevel.warn "Invalid character"] := by
  constructor
  · rw [draw_char, if_pos h]
  · rw [drawCharLog, if_pos h]

/-- Witness for C6 at code 200. -/
theorem draw_char_invalid_witness :
    ((200 : Int) < 32 ∨ (126 : Int) < 200) ∧
      (draw_char fontFull fbZero 3 4 200 9 = fbZero ∧
        drawCharLog 200 = [CoreEvent.log LogLevel.warn "Invalid character"]) :=
  ⟨Or.inr (by norm_num),
   draw_char_invalid fontFull fbZero 3 4 200 9 (Or.inr (by norm_num))⟩

/-- C9: for every start position, color, font table and prior
framebuffer, drawing "Hello World" runs the cursor from `x` to
`x + 88 = x + 8 * 11` and the resulting framebuffer is exactly the one
produced by eleven sequential `draw_char` calls for the successive
character codes at `x, x+8, x+16, ..., x+80`, all at row `y`. -/
theorem draw_string_helloWorld (font : Font) (fb : Framebuffer) (x y : Int)
    (color : Nat) :
    drawStringAux font fb x y helloWorld color =
      (draw_char font (draw_char font (draw_char font (draw_char font
        (draw_char font (draw_char font (draw_char font (draw_char font
        (draw_char font (draw_char font (draw_char font fb
          x y 72 color) (x + 8) y 101 color) (x + 16) y 108 color)
          (x + 24) y 108 color) (x + 32) y 111 color) (x + 40) y 32 color)
          (x + 48) y 87 color) (x + 56) y 111 color) (x + 64) y 114 color)
          (x + 72) y 108 color) (x + 80) y 100 color,
       x + 88) := by
  have h16 : x + 8 + 8 = x + 16 := by ring
  have h24 : x + 16 + 8 = x + 24 := by ring
  have h32 : x + 24 + 8 = x + 32 := by ring
  have h40 : x + 32 + 8 = x + 40 := by ring
  have h48 : x + 40 + 8 = x + 48 := by ring
  have h56 : x + 48 + 8 = x + 56 := by ring
  have h64 : x + 56 + 8 = x + 64 := by ring
  have h72 : x + 64 + 8 = x + 72 := by ring
  have h80 : x + 72 + 8 = x + 80 := by ring
  have h88 : x + 80 + 8 = x + 88 := by ring
  simp only [helloWorld, drawStringAux, h16, h24, h32, h40, h48, h56, h64,
    h72, h80, h88]

/-! ## Lifecycle theorems -/

/-- C3: in both translation units, calling `retro_run` while the core is
not initialized returns the state completely unchanged (in particular
the framebuffer, since the per-frame clear sits after the check) and
performs exactly one error log: no video submission, no input poll, no
other effect, for every prior state. -/
theorem retro_run_uninitialized (font : Font) (inp : Inputs)
    (sL : LibState) (sH : HwcState)
    (hL : sL.initialized = false) (hH : sH.initialized = false) :
    Lib.retro_run font inp sL =
      (sL, [CoreEvent.log LogLevel.error "Core not initialized in retro_run"]) ∧
    CoreEvent.videoRefresh ∉ (Lib.retro_run font inp sL).2 ∧
    Hwc.retro_run font sH =
      (sH, [CoreEvent.log LogLevel.error "Core not initialized in retro_run"]) ∧
    CoreEvent.videoRefresh ∉ (Hwc.retro_run font sH).2 := by
  have e1 : Lib.retro_run font inp sL =
      (sL, [CoreEvent.log LogLevel.error "Core not initialized in retro_run"]) := by
    simp [Lib.retro_run, hL]
  have e2 : Hwc.retro_run font sH =
      (sH, [CoreEvent.log LogLevel.error "Core not initialized in retro_run"]) := by
    simp [Hwc.retro_run, hH]
  refine ⟨e1, ?_, e2, ?_⟩
  · rw [e1]; simp
  · rw [e2]; simp

/-- Witness for C3 at the initial states of both translation units. -/
theorem retro_run_uninitialized_witness :
    (initLibState.initialized = false ∧ initHwcState.initialized = false) ∧
      (Lib.retro_run fontFull ⟨false, false, false, false⟩ initLibState =
        (initLibState,
         [CoreEvent.log LogLevel.error "Core not initialized in retro_run"]) ∧
       CoreEvent.videoRefresh ∉
         (Lib.retro_run fontFull ⟨false, false, false, false⟩ initLibState).2 ∧
       Hwc.retro_run fontFull initHwcState =
        (initHwcState,
         [CoreEvent.log LogLevel.error "Core not initialized in retro_run"]) ∧
       CoreEvent.videoRefresh ∉ (Hwc.retro_run fontFull initHwcState).2) :=
  ⟨⟨rfl, rfl⟩,
   retro_run_uninitialized fontFull ⟨false, false, false, false⟩
     initLibState initHwcState rfl rfl⟩

/-- C10: in both translation units, registering a null environment
callback stores the null pointer (and bumps the call counter), logs one
error, issues no request to the host, and leaves the negotiation flags
and the framebuffer unchanged, for every prior state. -/
theorem set_environment_null (host : Host) (sL : LibState) (sH : HwcState) :
    Lib.retro_set_environment host false sL =
      ({ sL with environCb := false, envCallCount := sL.envCallCount + 1 },
       [CoreEvent.log LogLevel.error
          "retro_set_environment: Null environment callback"]) ∧
    (∀ cmd, CoreEvent.envCall cmd ∉ (Lib.retro_set_environment host false sL).2) ∧
    (Lib.retro_set_environment host false sL).1.contentlessSet =
      sL.contentlessSet ∧
    (Lib.retro_set_environment host false sL).1.framebuffer = sL.framebuffer ∧
    Hwc.retro_set_environment host false sH =
      ({ sH with environCb := false, envCallCount := sH.envCallCount + 1 },
       [CoreEvent.log LogLevel.error
          "retro_set_environment: Null environment callback"]) ∧
    (∀ cmd, CoreEvent.envCall cmd ∉ (Hwc.retro_set_environment host false sH).2) ∧
    (Hwc.retro_set_environment host false sH).1.contentlessSet =
      sH.contentlessSet ∧
    (Hwc.retro_set_environment host false sH).1.pixelFormatSet =
      sH.pixelFormatSet ∧
    (Hwc.retro_set_environment host false sH).1.framebuffer = sH.framebuffer := by
  have e1 : Lib.retro_set_environment host false sL =
      ({ sL with environCb := false, envCallCount := sL.envCallCount + 1 },
       [CoreEvent.log LogLevel.error
          "retro_set_environment: Null environment callback"]) := rfl
  have e2 : Hwc.retro_set_environment host false sH =
      ({ sH with environCb := false, envCallCount := sH.envCallCount + 1 },
       [CoreEvent.log LogLevel.error
          "retro_set_environment: Null environment callback"]) := rfl
  refine ⟨e1, ?_, ?_, ?_, e2, ?_, ?_, ?_, ?_⟩ <;>
    simp [e1, e2]

/-- A host that accepts everything except the pixel-format request. -/
def hostPixelFail : Host :=
  { noGameOk := true, pixelFormatOk := false,
    logInterfaceOk := true, logInterfaceLog := true }

/-- The `lib.c` statics right after a non-null environment callback was
stored. -/
def sEnvReady : LibState := { initLibState with environCb := true }

/-- Counterexample to C1: with a host that rejects the pixel-format
request, `retro_init` of `lib.c` issues RETRO_ENVIRONMENT_SHUTDOWN to
the host -- the failed negotiation is not merely logged. -/
theorem retro_init_pixel_fail_requests_shutdown :
    hostPixelFail.pixelFormatOk = false ∧
      CoreEvent.envCall EnvCmd.shutdown ∈
        (Lib.retro_init hostPixelFail sEnvReady).2 := by
  refine ⟨rfl, ?_⟩
  simp [Lib.retro_init, hostPixelFail, sEnvReady, initLibState]

lemma hwc_set_environment_no_shutdown (host : Host) (cb : Bool)
    (s : HwcState) :
    CoreEvent.envCall EnvCmd.shutdown ∉ (Hwc.retro_set_environment host cb s).2 := by
  simp only [Hwc.retro_set_environment]
  split_ifs <;> simp

/-- C1 (amended): a failed content-less request and a failed
log-interface request are only logged in both translation units, and in
`hello_world_core.c` a failed pixel-format request is only logged too
-- no shutdown is ever requested there.  But in `lib.c`, a failed
pixel-format request in `retro_init` is logged AND followed by a
RETRO_ENVIRONMENT_SHUTDOWN request to the host; even then the core
itself does not abort: `initialized` is still set and later entry
points keep running with the default pixel assumptions. -/
theorem negotiation_failure_handling (host hostL : Host)
    (sL : LibState) (sH : HwcState)
    (hng : host.noGameOk = false) (hpf : host.pixelFormatOk = false)
    (hcl : sL.contentlessSet = false) (hec : sL.environCb = true)
    (hLpf : hostL.pixelFormatOk = true) (hLli : hostL.logInterfaceOk = false) :
    (CoreEvent.envCall EnvCmd.shutdown ∉
        (Lib.retro_set_environment host true sL).2 ∧
      (Lib.retro_set_environment host true sL).1.contentlessSet = false ∧
      CoreEvent.log LogLevel.error "Failed to set content-less support" ∈
        (Lib.retro_set_environment host true sL).2) ∧
    (CoreEvent.envCall EnvCmd.shutdown ∉ (Lib.retro_init hostL sL).2 ∧
      (Lib.retro_init hostL sL).1.initialized = true ∧
      CoreEvent.log LogLevel.warn "Failed to get log interface" ∈
        (Lib.retro_init hostL sL).2) ∧
    (CoreEvent.envCall EnvCmd.shutdown ∈ (Lib.retro_init host sL).2 ∧
      (Lib.retro_init host sL).1.initialized = true ∧
      CoreEvent.log LogLevel.error "Failed to set pixel format: RGB565" ∈
        (Lib.retro_init host sL).2) ∧
    CoreEvent.envCall EnvCmd.shutdown ∉
      (Hwc.retro_set_environment host true sH).2 := by
  refine ⟨⟨?_, ?_, ?_⟩, ⟨?_, ?_, ?_⟩, ⟨?_, ?_, ?_⟩, ?_⟩
  · simp [Lib.retro_set_environment, hcl, hng]
  · simp [Lib.retro_set_environment, hcl, hng]
  · simp [Lib.retro_set_environment, hcl, hng]
  · simp [Lib.retro_init, hec, hLpf, hLli]
  · simp [Lib.retro_init]
  · simp [Lib.retro_init, hec, hLpf, hLli]
  · simp [Lib.retro_init, hec, hpf]
  · simp [Lib.retro_init]
  · simp [Lib.retro_init, hec, hpf]
  · exact hwc_set_environment_no_shutdown host true sH

/-- Witness for C1 (amended): a host rejecting every request, a second
host rejecting only the log interface, and fresh states. -/
theorem negotiation_failure_handling_witness :
    ((Host.mk false false false false).noGameOk = false ∧
     (Host.mk false false false false).pixelFormatOk = false ∧
     sEnvReady.contentlessSet = false ∧ sEnvReady.environCb = true ∧
     (Host.mk true true false false).pixelFormatOk = true ∧
     (Host.mk true true false false).logInterfaceOk = false) ∧
    ((CoreEvent.envCall EnvCmd.shutdown ∉
        (Lib.retro_set_environment (Host.mk false false false false) true
          sEnvReady).2 ∧
      (Lib.retro_set_environment (Host.mk false false false false) true
          sEnvReady).1.contentlessSet = false ∧
      CoreEvent.log LogLevel.error "Failed to set content-less support" ∈
        (Lib.retro_set_environment (Host.mk false false false false) true
          sEnvReady).2) ∧
    (CoreEvent.envCall EnvCmd.shutdown ∉
        (Lib.retro_init (Host.mk true true false false) sEnvReady).2 ∧
      (Lib.retro_init (Host.mk true true false false) sEnvReady).1.initialized
          = true ∧
      CoreEvent.log LogLevel.warn "Failed to get log interface" ∈
        (Lib.retro_init (Host.mk true true false false) sEnvReady).2) ∧
    (CoreEvent.envCall EnvCmd.shutdown ∈
        (Lib.retro_init (Host.mk false false false false) sEnvReady).2 ∧
      (Lib.retro_init (Host.mk false false false false) sEnvReady).1.initialized
          = true ∧
      CoreEvent.log LogLevel.error "Failed to set pixel format: RGB565" ∈
        (Lib.retro_init (Host.mk false false false false) sEnvReady).2) ∧
    CoreEvent.envCall EnvCmd.shutdown ∉
      (Hwc.retro_set_environment (Host.mk false false false false) true
        initHwcState).2) :=
  ⟨⟨rfl, rfl, rfl, rfl, rfl, rfl⟩,
   negotiation_failure_handling (Host.mk false false false false)
     (Host.mk true true false false) sEnvReady initHwcState
     rfl rfl rfl rfl rfl rfl⟩

/-- A host that accepts every request and returns a usable log
function. -/
def hostAllOk : Host :=
  { noGameOk := true, pixelFormatOk := true,
    logInterfaceOk := true, logInterfaceLog := true }

/-- The `lib.c` statics after one successful environment registration
followed by one successful `retro_init`, with no deinit in between. -/
def sAfterFirstInit : LibState :=
  (Lib.retro_init hostAllOk
    (Lib.retro_set_environment hostAllOk true initLibState).1).1

/-- Counterexample to C8: within one session, after a first
`retro_init` in which the pixel-format request already succeeded, a
second `retro_init` issues the SET_PIXEL_FORMAT (and GET_LOG_INTERFACE)
request to the host again -- `lib.c` keeps no success flag for either,
so a succeeded request is reissued. -/
theorem retro_init_reissues_requests :
    hostAllOk.pixelFormatOk = true ∧
    CoreEvent.envCall EnvCmd.setPixelFormat ∈
      (Lib.retro_init hostAllOk sAfterFirstInit).2 ∧
    CoreEvent.envCall EnvCmd.getLogInterface ∈
      (Lib.retro_init hostAllOk sAfterFirstInit).2 := by
  have hec : sAfterFirstInit.environCb = true := rfl
  refine ⟨rfl, ?_, ?_⟩ <;> simp [Lib.retro_init, hec, hostAllOk]

/-- C8 (amended): within one session, `lib.c` guards only the
content-less request with a flag: once `contentless_set` is true, a
later environment registration does not reissue that request, and the
flag stays true across every entry point until `retro_deinit` resets
it.  There is no flag for the pixel-format or log-interface requests:
every `retro_init` with a non-null environment callback issues both
again, regardless of earlier success. -/
theorem contentless_once_pixel_reissued (font : Font) (host : Host)
    (inp : Inputs) (s : LibState)
    (h : s.contentlessSet = true) (hec : s.environCb = true) :
    ((Lib.retro_set_environment host true s).1.contentlessSet = true ∧
      CoreEvent.envCall EnvCmd.setSupportNoGame ∉
        (Lib.retro_set_environment host true s).2) ∧
    (Lib.retro_init host s).1.contentlessSet = true ∧
    (Lib.retro_run font inp s).1.contentlessSet = true ∧
    (Lib.retro_reset s).1.contentlessSet = true ∧
    (Lib.retro_deinit s).1.contentlessSet = false ∧
    CoreEvent.envCall EnvCmd.setPixelFormat ∈ (Lib.retro_init host s).2 ∧
    CoreEvent.envCall EnvCmd.getLogInterface ∈ (Lib.retro_init host s).2 := by
  refine ⟨⟨?_, ?_⟩, ?_, ?_, ?_, ?_, ?_, ?_⟩
  · simp [Lib.retro_set_environment, h]
  · simp [Lib.retro_set_environment, h]
  · simp [Lib.retro_init, h]
  · by_cases hi : s.initialized = false <;> simp [Lib.retro_run, hi, h]
  · simp [Lib.retro_reset, h]
  · simp [Lib.retro_deinit]
  · by_cases hp : host.pixelFormatOk <;> simp [Lib.retro_init, hec, hp]
  · by_cases hl : host.logInterfaceOk <;> simp [Lib.retro_init, hec, hl]

/-- The `lib.c` statics with the environment callback stored and the
content-less negotiation already succeeded. -/
def sNegotiated : LibState :=
  { initLibState with environCb := true, contentlessSet := true }

/-- Witness for C8 (amended) at a concrete negotiated state. -/
theorem contentless_once_pixel_reissued_witness :
    (sNegotiated.contentlessSet = true ∧ sNegotiated.environCb = true) ∧
    (((Lib.retro_set_environment hostAllOk true sNegotiated).1.contentlessSet
          = true ∧
       CoreEvent.envCall EnvCmd.setSupportNoGame ∉
         (Lib.retro_set_environment hostAllOk true sNegotiated).2) ∧
     (Lib.retro_init hostAllOk sNegotiated).1.contentlessSet = true ∧
     (Lib.retro_run fontFull ⟨false, false, false, false⟩
         sNegotiated).1.contentlessSet = true ∧
     (Lib.retro_reset sNegotiated).1.contentlessSet = true ∧
     (Lib.retro_deinit sNegotiated).1.contentlessSet = false ∧
     CoreEvent.envCall EnvCmd.setPixelFormat ∈
       (Lib.retro_init hostAllOk sNegotiated).2 ∧
     CoreEvent.envCall EnvCmd.getLogInterface ∈
       (Lib.retro_init hostAllOk sNegotiated).2) :=
  ⟨⟨rfl, rfl⟩,
   contentless_once_pixel_reissued fontFull hostAllOk
     ⟨false, false, false, false⟩ sNegotiated rfl rfl⟩

/-! ## Input and square-position theorems -/

lemma updX_bounds (inp : Inputs) (x : Int) (h0 : 0 ≤ x)
    (h1 : x ≤ WIDTH - 20) : 0 ≤ updX inp x ∧ updX inp x ≤ WIDTH - 20 := by
  simp only [updX, WIDTH] at *
  split_ifs <;> omega

lemma updY_bounds (inp : Inputs) (y : Int) (h0 : 0 ≤ y)
    (h1 : y ≤ HEIGHT - 20) : 0 ≤ updY inp y ∧ updY inp y ≤ HEIGHT - 20 := by
  simp only [updY, HEIGHT] at *
  split_ifs <;> omega

lemma updX_left_right (inp : Inputs) (x : Int)
    (hr : inp.right = true) (hl : inp.left = true)
    (h0 : 0 ≤ x) (h1 : x ≤ WIDTH - 20) :
    updX inp x = if x = WIDTH - 20 then WIDTH - 21 else x := by
  simp only [updX, WIDTH, hr, hl, if_true] at *
  split_ifs <;> omega

/-- C2 (amended): in a frame poll with both LEFT and RIGHT reported
pressed, the x position is unchanged for every x in [0, WIDTH-21]; but
at the right clamp boundary x = WIDTH-20 the literal right-then-left
update order makes the upper clamp absorb the increment and the
decrement still applies, leaving x = WIDTH-21 (a 1-pixel residual). -/
theorem retro_run_left_right (font : Font) (inp : Inputs) (s : LibState)
    (h1 : s.initialized = true) (h2 : s.inputStateCb = true)
    (hr : inp.right = true) (hl : inp.left = true)
    (h0 : 0 ≤ s.squareX) (h3 : s.squareX ≤ WIDTH - 20) :
    (Lib.retro_run font inp s).1.squareX =
      if s.squareX = WIDTH - 20 then WIDTH - 21 else s.squareX := by
  simp [Lib.retro_run, h1, h2]
  exact updX_left_right inp s.squareX hr hl h0 h3

/-- The `lib.c` statics in an initialized session with the input-state
callback registered and the square at the right clamp boundary
x = WIDTH - 20 = 300. -/
def sAtRightEdge : LibState :=
  { initLibState with
      initialized := true
      inputStateCb := true
      squareX := 300 }

/-- The same session state with the square at x = 5, away from the
clamp boundary. -/
def sAtFive : LibState :=
  { initLibState with
      initialized := true
      inputStateCb := true
      squareX := 5 }

/-- Counterexample to C2: at x = 300 = WIDTH - 20 (a position inside
the claimed range [0, WIDTH-20]), a poll reporting LEFT and RIGHT both
pressed moves the square to x = 299 instead of leaving it unchanged. -/
theorem retro_run_left_right_at_edge :
    sAtRightEdge.squareX = 300 ∧
      (Lib.retro_run fontFull ⟨true, true, false, false⟩
        sAtRightEdge).1.squareX = 299 := by
  constructor
  · rfl
  · have h1 : sAtRightEdge.initialized = true := rfl
    have h2 : sAtRightEdge.inputStateCb = true := rfl
    simp [Lib.retro_run, h1, h2, updX, sAtRightEdge, initLibState, WIDTH]

/-- Witness for C2 (amended) away from the boundary, at x = 5. -/
theorem retro_run_left_right_witness :
    (sAtFive.initialized = true ∧ sAtFive.inputStateCb = true ∧
      0 ≤ sAtFive.squareX ∧ sAtFive.squareX ≤ WIDTH - 20) ∧
    (Lib.retro_run fontFull ⟨true, true, false, false⟩ sAtFive).1.squareX =
      if sAtFive.squareX = WIDTH - 20 then WIDTH - 21 else sAtFive.squareX :=
  ⟨⟨rfl, rfl, by norm_num [sAtFive, initLibState],
    by norm_num [sAtFive, initLibState, WIDTH]⟩,
   retro_run_left_right fontFull ⟨true, true, false, false⟩ sAtFive
     rfl rfl rfl rfl (by norm_num [sAtFive, initLibState])
     (by norm_num [sAtFive, initLibState, WIDTH])⟩

/-- The joypad snapshot with only RIGHT pressed. -/
def rightOnly : Inputs :=
  { right := true, left := false, down := false, up := false }

/-- `n` consecutive `retro_run` frames of `lib.c` under a fixed input
snapshot (events dropped). -/
def runN (font : Font) (inp : Inputs) : Nat → LibState → LibState
  | 0, s => s
  | n + 1, s => runN font inp n (Lib.retro_run font inp s).1

lemma retro_run_fields (font : Font) (inp : Inputs) (s : LibState)
    (h : s.initialized = true) :
    (Lib.retro_run font inp s).1.initialized = true ∧
    (Lib.retro_run font inp s).1.inputStateCb = s.inputStateCb ∧
    (Lib.retro_run font inp s).1.squareX =
      (if s.inputStateCb then updX inp s.squareX else s.squareX) ∧
    (Lib.retro_run font inp s).1.squareY =
      (if s.inputStateCb then updY inp s.squareY else s.squareY) := by
  simp [Lib.retro_run, h]

lemma updX_rightOnly (x : Int) : updX rightOnly x = min (x + 1) (WIDTH - 20) := by
  simp only [updX, rightOnly, WIDTH]
  norm_num
  split_ifs <;> omega

lemma updY_rightOnly (y : Int) : updY rightOnly y = y := by
  simp [updY, rightOnly]

lemma runN_rightOnly (font : Font) : ∀ (n : Nat) (s : LibState),
    s.initialized = true → s.inputStateCb = true →
    0 ≤ s.squareX → s.squareX ≤ WIDTH - 20 →
    (runN font rightOnly n s).squareX = min (s.squareX + n) (WIDTH - 20) ∧
    (runN font rightOnly n s).squareY = s.squareY := by
  intro n
  induction n with
  | zero =>
      intro s _ _ h0 h1
      constructor
      · simp only [runN, WIDTH] at *; omega
      · rfl
  | succ n ih =>
      intro s hInit hCb h0 h1
      obtain ⟨f1, f2, f3, f4⟩ := retro_run_fields font rightOnly s hInit
      simp only [hCb, eq_self_iff_true, if_true] at f3 f4
      rw [updX_rightOnly] at f3
      rw [updY_rightOnly] at f4
      have h0n : 0 ≤ (Lib.retro_run font rightOnly s).1.squareX := by
        rw [f3]; simp only [WIDTH] at *; omega
      have h1n : (Lib.retro_run font rightOnly s).1.squareX ≤ WIDTH - 20 := by
        rw [f3]; simp only [WIDTH] at *; omega
      obtain ⟨g1, g2⟩ := ih (Lib.retro_run font rightOnly s).1 f1
        (by rw [f2]; exact hCb) h0n h1n
      constructor
      · show (runN font rightOnly n (Lib.retro_run font rightOnly s).1).squareX = _
        rw [g1, f3]
        simp only [WIDTH] at *
        push_cast
        omega
      · show (runN font rightOnly n (Lib.retro_run font rightOnly s).1).squareY = _
        rw [g2, f4]

/-- C7: from square position (0,0) in an initialized session with the
input-state callback registered, WIDTH = 320 consecutive frame polls
reporting only RIGHT pressed leave the square at (WIDTH-20, 0) = (300, 0),
and after every number of such polls the x position is at most
WIDTH-20: the clamp saturates and is never exceeded. -/
theorem retro_run_right_saturates (font : Font) (s : LibState)
    (h1 : s.initialized = true) (h2 : s.inputStateCb = true)
    (hx : s.squareX = 0) (hy : s.squareY = 0) :
    (runN font rightOnly WIDTH.toNat s).squareX = WIDTH - 20 ∧
    (runN font rightOnly WIDTH.toNat s).squareY = 0 ∧
    ∀ k : Nat, (runN font rightOnly k s).squareX ≤ WIDTH - 20 := by
  have h0 : 0 ≤ s.squareX := by rw [hx]
  have hb : s.squareX ≤ WIDTH - 20 := by rw [hx]; norm_num [WIDTH]
  refine ⟨?_, ?_, ?_⟩
  · obtain ⟨g1, _⟩ := runN_rightOnly font WIDTH.toNat s h1 h2 h0 hb
    rw [g1, hx]
    norm_num [WIDTH]
  · obtain ⟨_, g2⟩ := runN_rightOnly font WIDTH.toNat s h1 h2 h0 hb
    rw [g2, hy]
  · intro k
    obtain ⟨g1, _⟩ := runN_rightOnly font k s h1 h2 h0 hb
    rw [g1]
    simp only [WIDTH]
    omega

/-- The `lib.c` statics of a fresh initialized session with the
input-state callback registered and the square at the origin. -/
def sOrigin : LibState :=
  { initLibState with
      initialized := true
      inputStateCb := true }

/-- Witness for C7 at a concrete fresh session state. -/
theorem retro_run_right_saturates_witness :
    (sOrigin.initialized = true ∧ sOrigin.inputStateCb = true ∧
      sOrigin.squareX = 0 ∧ sOrigin.squareY = 0) ∧
    ((runN fontFull rightOnly WIDTH.toNat sOrigin).squareX = WIDTH - 20 ∧
     (runN fontFull rightOnly WIDTH.toNat sOrigin).squareY = 0 ∧
     ∀ k : Nat, (runN fontFull rightOnly k sOrigin).squareX ≤ WIDTH - 20) :=
  ⟨⟨rfl, rfl, rfl, rfl⟩,
   retro_run_right_saturates fontFull sOrigin rfl rfl rfl rfl⟩

lemma applyCall_preserves (c : Call) (s : LibState)
    (h : squareInBounds s) : squareInBounds (applyCall c s) := by
  obtain ⟨hx0, hx1, hy0, hy1⟩ := h
  cases c with
  | setEnvironment host cb =>
      show squareInBounds (Lib.retro_set_environment host cb s).1
      simp only [Lib.retro_set_environment]
      split_ifs <;> exact ⟨hx0, hx1, hy0, hy1⟩
  | setVideoRefresh cb => exact ⟨hx0, hx1, hy0, hy1⟩
  | setInputPoll cb => exact ⟨hx0, hx1, hy0, hy1⟩
  | setInputState cb => exact ⟨hx0, hx1, hy0, hy1⟩
  | init host => exact ⟨hx0, hx1, hy0, hy1⟩
  | deinit =>
      refine ⟨le_refl 0, ?_, le_refl 0, ?_⟩ <;>
        norm_num [WIDTH, HEIGHT, applyCall, Lib.retro_deinit]
  | reset =>
      refine ⟨le_refl 0, ?_, le_refl 0, ?_⟩ <;>
        norm_num [WIDTH, HEIGHT, applyCall, Lib.retro_reset]
  | loadGame => exact ⟨hx0, hx1, hy0, hy1⟩
  | stub => exact ⟨hx0, hx1, hy0, hy1⟩
  | run font inp =>
      show squareInBounds (Lib.retro_run font inp s).1
      by_cases hi : s.initialized = false
      · simp only [Lib.retro_run, hi, if_true, eq_self_iff_true]
        exact ⟨hx0, hx1, hy0, hy1⟩
      · by_cases hs : s.inputStateCb = true
        · have hx := updX_bounds inp s.squareX hx0 hx1
          have hy := updY_bounds inp s.squareY hy0 hy1
          simp only [Lib.retro_run, hi, if_false, squareInBounds, hs,
            eq_self_iff_true, if_true]
          exact ⟨hx.1, hx.2, hy.1, hy.2⟩
        · simp only [Lib.retro_run, hi, if_false, squareInBounds, hs,
            eq_self_iff_true, if_true]
          exact ⟨hx0, hx1, hy0, hy1⟩

lemma reach_aux_preserves (cs : List Call) :
    ∀ s : LibState, squareInBounds s →
      squareInBounds (cs.foldl (fun s c => applyCall c s) s) := by
  induction cs with
  | nil => intro s h; exact h
  | cons c t ih =>
      intro s h
      rw [List.foldl_cons]
      exact ih (applyCall c s) (applyCall_preserves c s h)

/-- C5: the 20x20 square stays fully inside the 320x240 framebuffer --
`0 <= squareX <= WIDTH-20` and `0 <= squareY <= HEIGHT-20` -- in every
`lib.c` state reachable from the initial statics by any sequence of
entry-point invocations; moreover `retro_reset` and `retro_deinit`
return the position to (0,0) from every state. -/
theorem square_always_in_bounds :
    (∀ cs : List Call, squareInBounds (reach cs)) ∧
    (∀ s : LibState,
      (Lib.retro_reset s).1.squareX = 0 ∧ (Lib.retro_reset s).1.squareY = 0 ∧
      (Lib.retro_deinit s).1.squareX = 0 ∧ (Lib.retro_deinit s).1.squareY = 0) := by
  constructor
  · intro cs
    refine reach_aux_preserves cs initLibState ?_
    refine ⟨le_refl 0, ?_, le_refl 0, ?_⟩ <;> norm_num [WIDTH, HEIGHT, initLibState]
  · intro s
    exact ⟨rfl, rfl, rfl, rfl⟩
